import Mathlib

/-!
Shallow embedding of the keyword-rank dashboard pipeline (src/app.py) and
verification of its specified properties.

The script loads a wide table whose columns from index 4 on are rank columns,
each headed by a date string; it parses headers, filters columns by a date
range, picks a latest and a previous rank column, classifies each keyword into
a rank bucket, drops unbucketed keywords, and labels each remaining keyword
with a movement between the previous and latest ranks.
-/

namespace Dashboard

/-- A calendar date as produced by datetime.strptime: year, month, day. -/
structure Date where
  y : Nat
  m : Nat
  d : Nat
deriving DecidableEq, Repr

/-- Key used for calendar comparison of dates; for dates with m at most 12 and
d at most 31 this agrees with calendar order. -/
def Date.toNat (dt : Date) : Nat := dt.y * 10000 + dt.m * 100 + dt.d

instance : LE Date := ⟨fun a b => a.toNat ≤ b.toNat⟩

instance : LT Date := ⟨fun a b => a.toNat < b.toNat⟩

instance (a b : Date) : Decidable (a ≤ b) :=
  inferInstanceAs (Decidable (a.toNat ≤ b.toNat))

instance (a b : Date) : Decidable (a < b) :=
  inferInstanceAs (Decidable (a.toNat < b.toNat))

/-- A raw cell value of a rank column, as the Python code observes it.
`num n` is any cell whose Python int conversion succeeds with value n
(an integer string, or a numeric pandas value); `dash` is the literal "-"
placeholder; `blank` is an empty or missing cell (pandas NaN, whose int
conversion raises); `text s` is any other cell text on which int raises. -/
inductive Cell where
  | num (n : Int)
  | dash
  | blank
  | text (s : String)
deriving DecidableEq, Repr

/-- Python int(cell): succeeds exactly on numeric cells. On dash, blank (NaN)
and non-numeric text the conversion raises, modelled as none. -/
def pyInt : Cell → Option Int
  | Cell.num n => some n
  | _ => none

/-- Whether str(cell) equals the literal "-": the test the except branch of
detect_movement performs. str of an int value is a decimal numeral and is
never "-"; str of NaN is "nan". -/
def cellStrEqDash : Cell → Bool
  | Cell.dash => true
  | Cell.text s => s = "-"
  | _ => false

/-- True on leap years, per the proleptic Gregorian calendar datetime uses. -/
def isLeap (y : Nat) : Bool := (y % 4 = 0 && y % 100 ≠ 0) || (y % 400 = 0)

/-- Number of days of month m in year y, as datetime validates them. -/
def daysInMonth (y m : Nat) : Nat :=
  if m = 2 then (if isLeap y then 29 else 28)
  else if m = 4 ∨ m = 6 ∨ m = 9 ∨ m = 11 then 30
  else 31

/-- The maximal runs of characters of a string between occurrences of sep, in
order, with the split semantics of string splitting: the empty string gives
one empty group, and separators at the ends give empty groups. -/
def splitChars (sep : Char) : List Char → List (List Char)
  | [] => [[]]
  | c :: rest =>
    if c = sep then [] :: splitChars sep rest
    else
      match splitChars sep rest with
      | [] => [[c]]
      | g :: gs => (c :: g) :: gs

/-- Numeric value of a run of decimal digit characters. -/
def digitsVal (l : List Char) : Nat :=
  l.foldl (fun acc c => acc * 10 + (c.toNat - 48)) 0

/-- A month or day field as strptime scans it: one or two digits. -/
def field2 (l : List Char) : Option Nat :=
  if 1 ≤ l.length ∧ l.length ≤ 2 ∧ l.all Char.isDigit then some (digitsVal l) else none

/-- A year field as strptime scans %Y: exactly four digits. -/
def field4 (l : List Char) : Option Nat :=
  if l.length = 4 ∧ l.all Char.isDigit then some (digitsVal l) else none

/-- datetime.strptime(s, "%m-%d-%Y") or "%m/%d/%Y" according to sep: the
string must be exactly month, day and four-digit year joined by sep, with a
valid month, a day valid for that month, and a positive year. -/
def parseWithSep (sep : Char) (s : String) : Option Date :=
  match splitChars sep s.data with
  | [ms, ds, ys] =>
    match field2 ms, field2 ds, field4 ys with
    | some m, some d, some y =>
      if 1 ≤ m ∧ m ≤ 12 ∧ 1 ≤ d ∧ d ≤ daysInMonth y m ∧ 1 ≤ y then
        some ⟨y, m, d⟩
      else none
    | _, _, _ => none
  | _ => none

/-- parse_flexible_date from src/app.py: try "%m-%d-%Y" first, then
"%m/%d/%Y"; the first format that matches wins; NaT (none) otherwise. -/
def parse_flexible_date (s : String) : Option Date :=
  match parseWithSep '-' s with
  | some dt => some dt
  | none => parseWithSep '/' s

/-- A rank bucket the dashboard displays. The Python classify_bucket returns
the strings "Top 3", "Top 5", "Top 10", or None; None (the excluded
Unclassified outcome) is modelled as none of Option Bucket. -/
inductive Bucket where
  | top3
  | top5
  | top10
deriving DecidableEq, Repr

/-- classify_bucket from src/app.py: int(rank), then the threshold chain
r le 3, r le 5, r le 10; anything larger, and any cell on which int raises,
yields None. -/
def classify_bucket (rank : Cell) : Option Bucket :=
  match pyInt rank with
  | some r =>
    if r ≤ 3 then some Bucket.top3
    else if r ≤ 5 then some Bucket.top5
    else if r ≤ 10 then some Bucket.top10
    else none
  | none => none

/-- A movement label of the dashboard. -/
inductive Movement where
  | progressing
  | declining
  | noMovement
  | newlyRanked
deriving DecidableEq, Repr

/-- detect_movement from src/app.py: if both cells convert with int, compare;
otherwise (the except branch) return Newly Ranked exactly when str(previous)
is "-" and str(latest) is not "-", else No Movement. -/
def detect_movement (latest previous : Cell) : Movement :=
  match pyInt latest, pyInt previous with
  | some l, some p =>
    if l < p then Movement.progressing
    else if p < l then Movement.declining
    else Movement.noMovement
  | _, _ =>
    if cellStrEqDash previous && !(cellStrEqDash latest) then Movement.newlyRanked
    else Movement.noMovement

/-- The rank-column region of the loaded sheet, as the script uses it.
cols models the columns of rank_data = df.iloc[:, 4:] in their left-to-right
table order: each entry is the header string paired with that column of cells,
one per keyword row. keywords models df[keyword_col] (column 0), aligned by
row index with every column of cells. -/
structure RawTable where
  cols : List (String × List Cell)
  keywords : List String
deriving DecidableEq, Repr

/-- The cells of the rank column with header h: rank_data[col], which with
distinct header texts is the unique column so labelled (first match). -/
def colCells (t : RawTable) (h : String) : List Cell :=
  match t.cols.find? (fun col => col.fst = h) with
  | some col => col.snd
  | none => []

/-- Line 65 of src/app.py, keeping the parsed date alongside each header:
the in-range rank columns, in raw table order — the comprehension runs over
zip(rank_data.columns, parsed_dates) and keeps col when the date parsed and
start_date le dt le end_date. -/
def filtered_pairs (t : RawTable) (s e : Date) : List (String × Date) :=
  t.cols.filterMap (fun col =>
    match parse_flexible_date col.fst with
    | some dt => if s ≤ dt ∧ dt ≤ e then some (col.fst, dt) else none
    | none => none)

/-- filtered_cols from line 65 of src/app.py: the headers of the in-range
columns, in raw table order. -/
def filtered_cols (t : RawTable) (s e : Date) : List String :=
  (filtered_pairs t s e).map Prod.fst

/-- The parsed dates of the in-range columns, in raw table order. -/
def filtered_dates (t : RawTable) (s e : Date) : List Date :=
  (filtered_pairs t s e).map Prod.snd

/-- All dates the column headers parse to, in raw table order. -/
def all_dates (t : RawTable) : List Date :=
  t.cols.filterMap (fun col => parse_flexible_date col.fst)

/-- The header the script takes the Latest Rank column from, line 72:
filtered_cols[-1], the positionally last in-range column. -/
def latest_header (t : RawTable) (s e : Date) : String :=
  ((filtered_pairs t s e).getLastD ("", ⟨0, 0, 0⟩)).fst

/-- Lines 75 to 79 of src/app.py: scan zip(rank_data.columns, parsed_dates)
in table order and return the first column whose parsed date equals the
comparison date, if any. -/
def comparison_col (t : RawTable) (c : Date) : Option String :=
  (t.cols.find? (fun col => parse_flexible_date col.fst = some c)).map Prod.fst

/-- The conditions on which the script halts with st.stop (or st.error):
start after end (lines 57 to 59), fewer than two in-range columns (lines 67
to 69), comparison date not found (lines 80 to 82). -/
inductive PipeError where
  | invalidRange
  | insufficientData
  | dateNotFound
deriving DecidableEq, Repr

/-- One row of the final df_filtered: keyword, its Latest Rank and Previous
Rank cells, its Bucket, and its Movement label. -/
structure RowOut where
  keyword : String
  latest : Cell
  previous : Cell
  bucket : Bucket
  movement : Movement
deriving DecidableEq, Repr

/-- The custom-range run of src/app.py after the sheet is loaded, as one
function: halt checks in script order (invalid range, then fewer than two
in-range columns, then missing comparison column), then Latest Rank from the
positionally last in-range column (line 72), Previous Rank from the
comparison column (line 84), Bucket per row (line 101), rows whose Bucket is
None dropped (line 102), and Movement per remaining row (line 160). -/
def runPipeline (t : RawTable) (s e c : Date) : Except PipeError (List RowOut) :=
  if e < s then Except.error PipeError.invalidRange
  else if (filtered_pairs t s e).length < 2 then Except.error PipeError.insufficientData
  else
    match comparison_col t c with
    | none => Except.error PipeError.dateNotFound
    | some ccol =>
      Except.ok ((t.keywords.zip
          ((colCells t (latest_header t s e)).zip (colCells t ccol))).filterMap (fun kp =>
        match classify_bucket kp.2.1 with
        | some b => some ⟨kp.1, kp.2.1, kp.2.2, b, detect_movement kp.2.1 kp.2.2⟩
        | none => none))

/-- Follows the words of the spec, for comparison with the code: the in-range
column whose parsed date is calendar-maximal (the first such column on ties),
paired with that date. -/
def specCalendarMaxPair (t : RawTable) (s e : Date) : Option (String × Date) :=
  (filtered_pairs t s e).foldl (fun acc p =>
    match acc with
    | none => some p
    | some q => if q.snd < p.snd then some p else some q) none

/-- Follows the words of the spec, for comparison with the code: the merged
rank for keyword row i and canonical date d, the numeric minimum over all
in-range columns whose header parses to d, ignoring cells that fail numeric
parsing; none when every contributing cell fails. -/
def specMergedRank (t : RawTable) (s e d : Date) (i : Nat) : Option Int :=
  ((filtered_pairs t s e).filter (fun p => p.snd = d)).foldl (fun acc p =>
    match (colCells t p.fst).get? i with
    | none => acc
    | some cell =>
      match pyInt cell, acc with
      | none, _ => acc
      | some v, none => some v
      | some v, some w => some (min v w)) none

/-- Table of Scenario D shape used below: no rank columns at all. -/
def tblC7 : RawTable := ⟨[], []⟩

/-- C3: for every rank value r, classify_bucket returns Top3 iff r le 3, Top5
iff 3 lt r le 5, Top10 iff 5 lt r le 10, and the excluded None (Unclassified)
otherwise; an absent or non-numeric rank always yields None. -/
theorem C3_bucket_boundaries :
    (∀ r : Int,
      (classify_bucket (Cell.num r) = some Bucket.top3 ↔ r ≤ 3) ∧
      (classify_bucket (Cell.num r) = some Bucket.top5 ↔ 3 < r ∧ r ≤ 5) ∧
      (classify_bucket (Cell.num r) = some Bucket.top10 ↔ 5 < r ∧ r ≤ 10) ∧
      (classify_bucket (Cell.num r) = none ↔ 10 < r)) ∧
    (∀ c : Cell, pyInt c = none → classify_bucket c = none) := by
  constructor
  · intro r
    simp only [classify_bucket, pyInt]
    split_ifs <;> simp_all <;> omega
  · intro c hc
    simp [classify_bucket, hc]

/-- Witness for C3 at concrete inputs: rank 7 is Top10, a blank cell is
unclassified. -/
theorem C3_bucket_boundaries_witness :
    classify_bucket (Cell.num 7) = some Bucket.top10 ∧ classify_bucket Cell.blank = none :=
  ⟨(C3_bucket_boundaries.1 7).2.2.1.mpr (by constructor <;> decide),
    C3_bucket_boundaries.2 Cell.blank rfl⟩

/-- C4 counterexample: the cell value 0 is not treated as a parse failure —
int(0) succeeds and classify_bucket places it in Top 3, not Unclassified. -/
theorem C4_nonpositive_cex :
    pyInt (Cell.num 0) = some 0 ∧
    classify_bucket (Cell.num 0) = some Bucket.top3 ∧
    classify_bucket (Cell.num 0) ≠ none := by
  refine ⟨rfl, rfl, by decide⟩

/-- C4 amended: a zero or negative numeric rank parses successfully (the rank
is present, not absent) and falls through the threshold chain into Top 3. -/
theorem C4_nonpositive_amended (r : Int) (h : r ≤ 0) :
    pyInt (Cell.num r) = some r ∧ classify_bucket (Cell.num r) = some Bucket.top3 := by
  refine ⟨rfl, ?_⟩
  simp only [classify_bucket, pyInt]
  rw [if_pos (by omega)]

/-- Witness for C4 amended at the concrete rank -2. -/
theorem C4_nonpositive_amended_witness :
    pyInt (Cell.num (-2)) = some (-2) ∧
    classify_bucket (Cell.num (-2)) = some Bucket.top3 :=
  C4_nonpositive_amended (-2) (by decide)

/-- C5 counterexample: previous rank absent as a blank (NaN) cell and latest
rank 6 present yields No Movement, not Newly Ranked — the code only
recognizes absence written as the literal "-". -/
theorem C5_absent_previous_cex :
    detect_movement (Cell.num 6) Cell.blank = Movement.noMovement ∧
    detect_movement (Cell.num 6) Cell.blank ≠ Movement.newlyRanked := by
  refine ⟨rfl, by decide⟩

/-- C5 amended: Newly Ranked is returned exactly when the previous cell is the
literal "-" and the latest cell is not "-"; any other representation of an
absent previous rank yields No Movement. -/
theorem C5_dash_previous_amended (latest : Cell) (h : cellStrEqDash latest = false) :
    detect_movement latest Cell.dash = Movement.newlyRanked := by
  cases latest <;> simp_all [detect_movement, pyInt, cellStrEqDash]

/-- Witness for C5 amended: previous "-" and latest 6 yields Newly Ranked. -/
theorem C5_dash_previous_amended_witness :
    detect_movement (Cell.num 6) Cell.dash = Movement.newlyRanked :=
  C5_dash_previous_amended (Cell.num 6) rfl

/-- C6: detect_movement is total — on every pair of cells it returns exactly
one of the four movement labels and never fails. -/
theorem C6_movement_total (latest previous : Cell) :
    detect_movement latest previous = Movement.progressing ∨
    detect_movement latest previous = Movement.declining ∨
    detect_movement latest previous = Movement.noMovement ∨
    detect_movement latest previous = Movement.newlyRanked := by
  cases h : detect_movement latest previous <;> simp

/-- C7: an explicit range with start after end makes the run halt with the
InvalidRange condition, for every table and comparison date — the bounds are
never swapped. -/
theorem C7_invalid_range (t : RawTable) (s e c : Date) (h : e < s) :
    runPipeline t s e c = Except.error PipeError.invalidRange := by
  simp [runPipeline, if_pos h]

/-- Witness for C7 at Scenario D: start 2024-01-10, end 2024-01-05. -/
theorem C7_invalid_range_witness :
    runPipeline tblC7 ⟨2024, 1, 10⟩ ⟨2024, 1, 5⟩ ⟨2024, 1, 5⟩ =
      Except.error PipeError.invalidRange :=
  C7_invalid_range tblC7 _ _ _ (by decide)

/-- Helper: a lower bound of a list and of the default bounds its getLastD. -/
theorem le_getLastD_of_forall_le (a : Date) :
    ∀ (l : List Date) (d : Date), a ≤ d → (∀ x ∈ l, a ≤ x) → a ≤ l.getLastD d := by
  intro l
  induction l with
  | nil => intro d hd _; simpa using hd
  | cons b tl ih =>
    intro d _ hall
    rw [List.getLastD_cons]
    exact ih b (hall b (by simp)) (fun x hx => hall x (by simp [hx]))

/-- Helper: in a list sorted by calendar order, every element is at most the
last element. -/
theorem le_getLastD_of_pairwise :
    ∀ (l : List Date) (d : Date), l.Pairwise (· ≤ ·) → ∀ x ∈ l, x ≤ l.getLastD d := by
  intro l
  induction l with
  | nil => simp
  | cons b tl ih =>
    intro d hp x hx
    rw [List.getLastD_cons]
    rcases List.mem_cons.mp hx with rfl | hxt
    · exact le_getLastD_of_forall_le x tl x (Nat.le_refl _) (List.pairwise_cons.mp hp).1
    · exact ih b (List.pairwise_cons.mp hp).2 x hxt

/-- Helper: getLastD commutes with the second projection. -/
theorem getLastD_map_snd :
    ∀ (l : List (String × Date)) (d : String × Date),
      (l.map Prod.snd).getLastD d.snd = (l.getLastD d).snd := by
  intro l
  induction l with
  | nil => intro d; rfl
  | cons a tl ih =>
    intro d
    simp only [List.map_cons, List.getLastD_cons]
    exact ih a

/-- Table with in-range columns out of calendar order: the January 10 column
sits left of the January 5 column. -/
def tblC1 : RawTable := ⟨[("01-10-2024", [Cell.num 7]), ("01-05-2024", [Cell.num 2])], ["k"]⟩

/-- Table whose rank columns are already in ascending calendar order. -/
def tblC1w : RawTable := ⟨[("01-05-2024", [Cell.num 2]), ("01-10-2024", [Cell.num 7])], ["k"]⟩

/-- C1 counterexample: with the in-range columns out of calendar order, the
rank used as latest is 2, taken from the positionally last column
(January 5), while the calendar-maximal in-range column (January 10) holds 7:
column position, not calendar order, decides. -/
theorem C1_latest_by_position_cex :
    runPipeline tblC1 ⟨2024, 1, 1⟩ ⟨2024, 1, 31⟩ ⟨2024, 1, 5⟩ =
      Except.ok [⟨"k", Cell.num 2, Cell.num 2, Bucket.top3, Movement.noMovement⟩] ∧
    specCalendarMaxPair tblC1 ⟨2024, 1, 1⟩ ⟨2024, 1, 31⟩ =
      some ("01-10-2024", ⟨2024, 1, 10⟩) ∧
    colCells tblC1 "01-10-2024" = [Cell.num 7] ∧
    latest_header tblC1 ⟨2024, 1, 1⟩ ⟨2024, 1, 31⟩ = "01-05-2024" ∧
    (Cell.num 2 : Cell) ≠ Cell.num 7 :=
  ⟨rfl, rfl, rfl, rfl, by decide⟩

/-- C1 amended: the latest rank column is the positionally last in-range
column; only when the in-range columns already appear in ascending calendar
order is its parsed date calendar-maximal among the in-range columns. -/
theorem C1_latest_calendar_amended (t : RawTable) (s e : Date)
    (hsorted : (filtered_dates t s e).Pairwise (· ≤ ·)) :
    latest_header t s e = ((filtered_pairs t s e).getLastD ("", ⟨0, 0, 0⟩)).fst ∧
    ∀ p ∈ filtered_pairs t s e,
      p.snd ≤ ((filtered_pairs t s e).getLastD ("", ⟨0, 0, 0⟩)).snd := by
  refine ⟨rfl, fun p hp => ?_⟩
  have hmem : p.snd ∈ filtered_dates t s e := List.mem_map_of_mem Prod.snd hp
  have h := le_getLastD_of_pairwise (filtered_dates t s e) (⟨0, 0, 0⟩ : Date) hsorted p.snd hmem
  rwa [filtered_dates, getLastD_map_snd (filtered_pairs t s e) ("", ⟨0, 0, 0⟩)] at h

/-- Witness for C1 amended on a calendar-sorted table: the January 5 column
date is at most the date of the selected last column. -/
theorem C1_latest_calendar_amended_witness :
    (⟨2024, 1, 5⟩ : Date) ≤
      ((filtered_pairs tblC1w ⟨2024, 1, 1⟩ ⟨2024, 1, 31⟩).getLastD ("", ⟨0, 0, 0⟩)).snd :=
  (C1_latest_calendar_amended tblC1w ⟨2024, 1, 1⟩ ⟨2024, 1, 31⟩ (by decide)).2
    ("01-05-2024", ⟨2024, 1, 5⟩) (by decide)

/-- Helper: anatomy of a successful run — the comparison column was found,
and every emitted row takes its latest cell from the positionally last
in-range column, its previous cell from the comparison column, carries the
bucket its latest cell classifies to, and the movement of its two cells. -/
theorem runPipeline_ok_row (t : RawTable) (s e c : Date) (rows : List RowOut)
    (h : runPipeline t s e c = Except.ok rows) :
    ∃ ccol, comparison_col t c = some ccol ∧
      ∀ r ∈ rows, r.latest ∈ colCells t (latest_header t s e) ∧
        r.previous ∈ colCells t ccol ∧
        classify_bucket r.latest = some r.bucket ∧
        r.movement = detect_movement r.latest r.previous := by
  unfold runPipeline at h
  split_ifs at h
  rcases hc : comparison_col t c with _ | ccol
  · simp only [hc] at h
    exact Except.noConfusion h
  · simp only [hc] at h
    injection h with h
    refine ⟨ccol, rfl, ?_⟩
    intro r hr
    rw [← h] at hr
    rcases List.mem_filterMap.mp hr with ⟨kp, hkp, hf⟩
    rcases hb : classify_bucket kp.2.1 with _ | b
    · rw [hb] at hf
      exact Option.noConfusion hf
    · rw [hb] at hf
      injection hf with hf
      subst hf
      have h1 := List.of_mem_zip hkp
      have h2 := List.of_mem_zip h1.2
      exact ⟨h2.1, h2.2, hb, rfl⟩

/-- Table of Scenario A: two headers for March 1 2024 under different
formats, holding values 3 and 5 for the single keyword. -/
def tblC2 : RawTable := ⟨[("3/1/2024", [Cell.num 3]), ("03-01-2024", [Cell.num 5])], ["k"]⟩

/-- C2 counterexample: with headers "3/1/2024" (value 3) and "03-01-2024"
(value 5) both resolving to March 1 2024, the run exposes latest rank 5 and
previous rank 3 for the very same (keyword, date): no single merged rank
exists, and the exposed latest rank is 5, not the claimed minimum 3. -/
theorem C2_no_merge_cex :
    runPipeline tblC2 ⟨2024, 3, 1⟩ ⟨2024, 3, 31⟩ ⟨2024, 3, 1⟩ =
      Except.ok [⟨"k", Cell.num 5, Cell.num 3, Bucket.top5, Movement.declining⟩] ∧
    parse_flexible_date "3/1/2024" = some ⟨2024, 3, 1⟩ ∧
    parse_flexible_date "03-01-2024" = some ⟨2024, 3, 1⟩ ∧
    specMergedRank tblC2 ⟨2024, 3, 1⟩ ⟨2024, 3, 31⟩ ⟨2024, 3, 1⟩ 0 = some 3 ∧
    (Cell.num 5 : Cell) ≠ Cell.num 3 :=
  ⟨rfl, rfl, rfl, rfl, by decide⟩

/-- C2 amended: duplicate-date columns are never merged and no minimum is
taken; every exposed latest rank is a raw cell of the single positionally
last in-range column, and every exposed previous rank is a raw cell of the
single first column matching the comparison date. -/
theorem C2_no_merge_amended (t : RawTable) (s e c : Date) (rows : List RowOut)
    (h : runPipeline t s e c = Except.ok rows) :
    ∃ ccol, comparison_col t c = some ccol ∧
      ∀ r ∈ rows, r.latest ∈ colCells t (latest_header t s e) ∧
        r.previous ∈ colCells t ccol := by
  rcases runPipeline_ok_row t s e c rows h with ⟨ccol, hc, hrow⟩
  exact ⟨ccol, hc, fun r hr => ⟨(hrow r hr).1, (hrow r hr).2.1⟩⟩

/-- Witness for C2 amended on the Scenario A table. -/
theorem C2_no_merge_amended_witness :
    ∃ ccol, comparison_col tblC2 ⟨2024, 3, 1⟩ = some ccol ∧
      ∀ r ∈ [(⟨"k", Cell.num 5, Cell.num 3, Bucket.top5, Movement.declining⟩ : RowOut)],
        r.latest ∈ colCells tblC2 (latest_header tblC2 ⟨2024, 3, 1⟩ ⟨2024, 3, 31⟩) ∧
        r.previous ∈ colCells tblC2 ccol :=
  C2_no_merge_amended tblC2 ⟨2024, 3, 1⟩ ⟨2024, 3, 31⟩ ⟨2024, 3, 1⟩ _ rfl

/-- Table for the halt scenarios: rank data for January 5 and 10, 2024. -/
def tblC8 : RawTable := ⟨[("01-05-2024", [Cell.num 2]), ("01-10-2024", [Cell.num 7])], ["k"]⟩

/-- C8 counterexample: on a table whose latest rank would classify fine, a
missing comparison date halts the whole run with st.stop before the Bucket
column is ever computed, and so does a range holding a single date — bucket
classification does not proceed on either failure. -/
theorem C8_stop_halts_cex :
    runPipeline tblC8 ⟨2024, 1, 1⟩ ⟨2024, 1, 31⟩ ⟨2024, 2, 1⟩ =
      Except.error PipeError.dateNotFound ∧
    runPipeline tblC8 ⟨2024, 1, 6⟩ ⟨2024, 1, 31⟩ ⟨2024, 1, 10⟩ =
      Except.error PipeError.insufficientData ∧
    classify_bucket (Cell.num 7) = some Bucket.top10 :=
  ⟨rfl, rfl, rfl⟩

/-- C8 amended: the pipeline never mutates the raw table (it is a pure
function of it), but each movement-prerequisite failure aborts the entire
run in script order — fewer than two in-range columns yields
InsufficientData, and a found range with a missing comparison date yields
DateNotFound — so no bucket output is produced either. -/
theorem C8_stop_halts_amended (t : RawTable) (s e c : Date) (hse : ¬ e < s) :
    ((filtered_pairs t s e).length < 2 →
      runPipeline t s e c = Except.error PipeError.insufficientData) ∧
    (¬ (filtered_pairs t s e).length < 2 → comparison_col t c = none →
      runPipeline t s e c = Except.error PipeError.dateNotFound) := by
  constructor
  · intro hlen
    unfold runPipeline
    rw [if_neg hse, if_pos hlen]
  · intro hlen hc
    unfold runPipeline
    rw [if_neg hse, if_neg hlen]
    simp only [hc]

/-- Witness for C8 amended: the single-date range on the concrete table. -/
theorem C8_stop_halts_amended_witness :
    runPipeline tblC8 ⟨2024, 1, 6⟩ ⟨2024, 1, 31⟩ ⟨2024, 1, 10⟩ =
      Except.error PipeError.insufficientData :=
  (C8_stop_halts_amended tblC8 ⟨2024, 1, 6⟩ ⟨2024, 1, 31⟩ ⟨2024, 1, 10⟩
    (by decide)).1 (by decide)

/-- Table with in-range columns out of calendar order, for the range claim. -/
def tblC9 : RawTable := ⟨[("01-10-2024", [Cell.num 7]), ("01-05-2024", [Cell.num 2])], ["k"]⟩

/-- Calendar-sorted variant of the same data. -/
def tblC9w : RawTable := ⟨[("01-05-2024", [Cell.num 2]), ("01-10-2024", [Cell.num 7])], ["k"]⟩

/-- C9 counterexample: with the January 10 column left of the January 5
column, the selected in-range dates come out as [Jan 10, Jan 5] — raw table
order, not ascending calendar order. -/
theorem C9_unsorted_cex :
    filtered_dates tblC9 ⟨2024, 1, 1⟩ ⟨2024, 1, 31⟩ = [⟨2024, 1, 10⟩, ⟨2024, 1, 5⟩] ∧
    ¬ (filtered_dates tblC9 ⟨2024, 1, 1⟩ ⟨2024, 1, 31⟩).Pairwise (· ≤ ·) := by
  refine ⟨rfl, ?_⟩
  intro hp
  rw [show filtered_dates tblC9 ⟨2024, 1, 1⟩ ⟨2024, 1, 31⟩ =
      [⟨2024, 1, 10⟩, ⟨2024, 1, 5⟩] from rfl] at hp
  have h10 := (List.pairwise_cons.mp hp).1 ⟨2024, 1, 5⟩ (by simp)
  exact absurd h10 (by decide)

/-- C9 amended: the selected dates are exactly the parseable matrix dates
satisfying the bounds, kept in raw table order; they are ascending only when
the parseable header dates already appear in ascending calendar order. -/
theorem C9_range_order_amended (t : RawTable) (s e : Date) :
    filtered_dates t s e = (all_dates t).filter (fun d => decide (s ≤ d ∧ d ≤ e)) ∧
    ((all_dates t).Pairwise (· ≤ ·) → (filtered_dates t s e).Pairwise (· ≤ ·)) := by
  have key : filtered_dates t s e = (all_dates t).filter (fun d => decide (s ≤ d ∧ d ≤ e)) := by
    rcases t with ⟨cols, kws⟩
    simp only [filtered_dates, filtered_pairs, all_dates]
    induction cols with
    | nil => rfl
    | cons cl tl ih =>
      simp only [List.filterMap_cons]
      rcases hp : parse_flexible_date cl.fst with _ | dt
      · exact ih
      · by_cases hr : s ≤ dt ∧ dt ≤ e
        · simp only [if_pos hr, List.map_cons, List.filter_cons,
            decide_eq_true_eq, if_pos hr]
          exact congrArg (List.cons dt) ih
        · simp only [if_neg hr, List.filter_cons, decide_eq_true_eq, if_neg hr]
          exact ih
  refine ⟨key, fun hs => ?_⟩
  rw [key]
  exact hs.sublist ((all_dates t).filter_sublist)

/-- Witness for C9 amended: on the calendar-sorted table the selected dates
are ascending. -/
theorem C9_range_order_amended_witness :
    (filtered_dates tblC9w ⟨2024, 1, 1⟩ ⟨2024, 1, 31⟩).Pairwise (· ≤ ·) :=
  (C9_range_order_amended tblC9w ⟨2024, 1, 1⟩ ⟨2024, 1, 31⟩).2 (by decide)

/-- Table on which the run succeeds with a nonempty movement output. -/
def tblC10 : RawTable := ⟨[("01-05-2024", [Cell.num 4]), ("01-10-2024", [Cell.num 2])], ["a"]⟩

/-- C10: every keyword row the run reports a movement for carries a present
bucket — rows whose latest rank classifies to None (absent, non-numeric, or
out of threshold) were dropped before movement classification, so no
unclassified keyword appears in any movement output. -/
theorem C10_only_bucketed (t : RawTable) (s e c : Date) (rows : List RowOut)
    (h : runPipeline t s e c = Except.ok rows) :
    ∀ r ∈ rows, classify_bucket r.latest = some r.bucket ∧
      r.movement = detect_movement r.latest r.previous := by
  rcases runPipeline_ok_row t s e c rows h with ⟨ccol, _, hrow⟩
  exact fun r hr => ⟨(hrow r hr).2.2.1, (hrow r hr).2.2.2⟩

/-- Witness for C10 on a concrete successful run. -/
theorem C10_only_bucketed_witness :
    classify_bucket (Cell.num 2) = some Bucket.top3 ∧
    Movement.progressing = detect_movement (Cell.num 2) (Cell.num 4) :=
  C10_only_bucketed tblC10 ⟨2024, 1, 1⟩ ⟨2024, 1, 31⟩ ⟨2024, 1, 5⟩
    [⟨"a", Cell.num 2, Cell.num 4, Bucket.top3, Movement.progressing⟩] rfl
    ⟨"a", Cell.num 2, Cell.num 4, Bucket.top3, Movement.progressing⟩ (by decide)

end Dashboard
